import Mathlib

/-!
Verification development for the CAI web backend
(`src/cai/web/backend`: `task_manager.py`, `session_manager.py`,
`websocket_manager.py`, `main.py`, `models.py`).

The Python code is asynchronous but single-threaded (asyncio, cooperative
scheduling).  The shallow embedding below models:
  * each manager's mutable state as an explicit Lean structure,
  * `datetime.utcnow()` as a `Nat` clock that ticks at every call,
  * Python dictionaries as association lists (keys are unique, as in a dict),
  * Python exception behaviour with `Except` where a function can raise,
  * the opaque agent-run result (`Runner.run`) as an explicit data type
    carrying the fields the backend reads (`new_items`, `raw_responses`),
  * asyncio scheduling facts that the code relies on:
      - `asyncio.create_task` only schedules the coroutine; it does not run
        before the creating coroutine reaches a suspension point,
      - `asyncio.wait_for` on timeout cancels the inner task and waits for the
        cancellation to complete before raising `TimeoutError` (Python >= 3.8),
      - `asyncio.CancelledError` derives from `BaseException` (Python >= 3.8),
        so it is not caught by `except Exception`.
Python truthiness of strings/collections is modelled by explicit emptiness
tests.
-/

namespace Cai

/-- The `TaskStatus` enumeration from `models.py`. -/
inductive TaskStatus where
  | pending
  | running
  | completed
  | failed
  | cancelled
deriving DecidableEq, Repr

/-- A status is terminal when it is `completed`, `failed` or `cancelled`. -/
def TaskStatus.isTerminal : TaskStatus → Bool
  | .completed => true
  | .failed => true
  | .cancelled => true
  | _ => false

/-- The `SessionStatus` enumeration from `models.py`. -/
inductive SessionStatus where
  | active
  | idle
  | terminated
deriving DecidableEq, Repr

/-- One entry of `Task.logs` (`models.py` stores free-form dicts; the backend
only ever writes `tool_executed` and `error` entries, modelled by the fields
below). -/
structure LogEntry where
  ltype : String
  tool : Option String := none
  errMsg : Option String := none
  timestamp : Nat
deriving DecidableEq, Repr

/-- The `task.metadata` mapping written by `TaskManager._execute_task`
(keys `initial_thinking`, `final_response`, `tool_commands`, `tool_outputs`).
The code stores `None` for an empty initial/final message, modelled by
`Option String`. -/
structure TaskMetadata where
  initial_thinking : Option String := none
  final_response : Option String := none
  tool_commands : List (String × String) := []
  tool_outputs : List String := []
deriving DecidableEq, Repr

/-- Aggregated token usage (`task.token_usage`). -/
structure TokenUsage where
  prompt_tokens : Nat := 0
  completion_tokens : Nat := 0
  total_tokens : Nat := 0
deriving DecidableEq, Repr

/-- The `Task` model from `models.py`.  Timestamps are `Nat` clock values. -/
structure Task where
  id : String
  session_id : String
  message : String
  status : TaskStatus := .pending
  created_at : Nat
  started_at : Option Nat := none
  completed_at : Option Nat := none
  result : Option String := none
  error : Option String := none
  logs : List LogEntry := []
  tools_used : List String := []
  token_usage : Option TokenUsage := none
  metadata : TaskMetadata := {}
deriving DecidableEq, Repr

/-- The `Session` model from `models.py`, restricted to the fields the
session-manager claims read.  The agent handle is opaque and omitted. -/
structure Session where
  id : String
  name : String
  agent_type : String
  model : String
  status : SessionStatus := .active
  created_at : Nat
  updated_at : Nat
deriving DecidableEq, Repr

/-! ## WebSocketManager (`websocket_manager.py`)

A connection is modelled by an identifier plus a `failing` flag: sending on a
failing socket raises (the connection is closed), sending on a healthy socket
delivers.  `self.connections : Dict[str, List[WebSocket]]` is an association
list from session id to the list of registered sockets. -/

/-- A WebSocket connection handle. -/
structure WSocket where
  wid : Nat
  failing : Bool
deriving DecidableEq, Repr

/-- A broadcast payload; the claims only need it to be an opaque value that
is delivered whole. -/
structure Payload where
  ptype : String
  body : String := ""
deriving DecidableEq, Repr

/-- The per-session connection registry of `WebSocketManager`. -/
def Connections := List (String × List WSocket)

/-- Model of `websocket.send_json(data)`: succeeds on a healthy socket, raises on a
closed one.  A successful send is recorded as the pair (socket id, payload). -/
def send_json (ws : WSocket) (data : Payload) : Except String (Nat × Payload) :=
  if ws.failing then .error "connection closed" else .ok (ws.wid, data)

/-- Model of `WebSocketManager._send_to_websocket`: wraps `send_json` in
`try ... except Exception: pass`, so it never raises; it returns the list of
deliveries made (empty when the send failed). -/
def send_to_websocket (ws : WSocket) (data : Payload) : List (Nat × Payload) :=
  match send_json ws data with
  | .ok d => [d]
  | .error _ => []

/-- Model of `WebSocketManager.broadcast_to_session`: if the session has a bucket,
send to every socket in it (the code starts one send per socket and gathers
them with `return_exceptions=True`; each send is already exception-free, and
the independent sends are folded in registration order).  The result is
`Except` to model that the caller could in principle see an exception; the
theorems show it never does.  `gather_sends` is the gather over the
per-socket sends. -/
def gather_sends (bucket : List WSocket) (data : Payload)
    (acc : List (Nat × Payload)) : Except String (List (Nat × Payload)) :=
  bucket.foldlM (fun acc ws => return acc ++ send_to_websocket ws data) acc

/-- Model of `WebSocketManager.broadcast_to_session` proper: nothing to do without a
bucket for the session. -/
def broadcast_to_session (conns : Connections) (session_id : String)
    (data : Payload) : Except String (List (Nat × Payload)) :=
  match List.lookup session_id conns with
  | some bucket => gather_sends bucket data []
  | none => return []

/-- Python's `list.remove` as used by `WebSocketManager.disconnect`: it
removes the first occurrence and raises `ValueError` when the element is
absent. -/
def list_remove (l : List WSocket) (ws : WSocket) : Except String (List WSocket) :=
  match l with
  | [] => .error "ValueError: list.remove(x): x not in list"
  | w :: rest =>
      if w = ws then .ok rest
      else do
        let rest' ← list_remove rest ws
        return w :: rest'

/-- Remove a key from an association list (Python `del dict[key]`; keys are
unique in a dict, and the managers only insert fresh keys). -/
def delKey {β : Type} (l : List (String × β)) (k : String) : List (String × β) :=
  l.filter (fun p => p.1 != k)

/-- Replace the value stored under a key, or append the binding when the key
is absent (Python `dict[key] = value`). -/
def setKey {β : Type} (l : List (String × β)) (k : String) (v : β) :
    List (String × β) :=
  if l.any (fun p => p.1 = k) then
    l.map (fun p => if p.1 = k then (k, v) else p)
  else l ++ [(k, v)]

/-- Model of `WebSocketManager.disconnect(websocket, session_id)`: a no-op when the
session has no bucket; otherwise `list.remove` (which raises when the socket
is not registered), dropping the bucket when it becomes empty. -/
def disconnect (conns : Connections) (ws : WSocket) (session_id : String) :
    Except String Connections :=
  match List.lookup session_id conns with
  | none => .ok conns
  | some bucket => do
      let bucket' ← list_remove bucket ws
      if bucket'.isEmpty then
        return delKey conns session_id
      else
        return setKey conns session_id bucket'

/-! ## SessionManager (`session_manager.py`)

The registry `self.sessions : Dict[str, Session]` is an association list
keyed by session id (ids are fresh uuids, so keys are unique). -/

/-- The session registry state. -/
def Sessions := List (String × Session)

/-- Model of `SessionManager.get_session`. -/
def get_session (st : Sessions) (session_id : String) : Option Session :=
  List.lookup session_id st

/-- Model of `SessionManager.delete_session`: under the lock, when the id is present,
mark the session `terminated`, remove it from the map and return `True`;
otherwise return `False`. -/
def delete_session (st : Sessions) (session_id : String) : Bool × Sessions :=
  match List.lookup session_id st with
  | some s =>
      let _terminated := { s with status := SessionStatus.terminated }
      (true, delKey st session_id)
  | none => (false, st)

/-! ## The opaque agent-run result (`Runner.run`)

`TaskManager._execute_task` reads from the result only `new_items` and
`raw_responses`, and from each item only the attributes probed by `hasattr`.
Each probed attribute becomes an `Option` field; `str(item.type).lower()` is
a string classified by substring tests, exactly as in the code. -/

/-- Result of `json.loads(...)` applied to a tool call's `function.arguments`: a parsed
dictionary (values modelled as strings), or, when parsing raised, the raw
argument string kept by the `except` branch. -/
inductive ToolArgs where
  | parsed (kvs : List (String × String))
  | raw (s : String)
deriving DecidableEq, Repr

/-- The field `tool_calls[0].function` of a raw OpenAI tool call. -/
structure RawFunction where
  name : String
  arguments : ToolArgs
deriving DecidableEq, Repr

/-- One element of `raw_item.tool_calls`. -/
structure RawToolCall where
  function : RawFunction
deriving DecidableEq, Repr

/-- One element of `raw_item.content`: it has a `.text` attribute, or a
`.content` attribute, or neither (in which case the code uses `str(...)`). -/
inductive ContentItem where
  | text (s : String)
  | content (s : String)
  | reprOf (s : String)
deriving DecidableEq, Repr

/-- The `raw_item` attribute of a run item; each field is `some` exactly when
`hasattr` holds. -/
structure RawItem where
  tool_calls : Option (List RawToolCall) := none
  name : Option String := none
  content : Option (List ContentItem) := none
deriving DecidableEq, Repr

/-- One element of `result.new_items`.  `type_str` is `str(item.type)`;
`tool_name` / `raw_item` / `output` are `some` exactly when `hasattr` holds. -/
structure Item where
  type_str : String
  tool_name : Option String := none
  raw_item : Option RawItem := none
  output : Option String := none
deriving DecidableEq, Repr

/-- The `usage` of one entry of `result.raw_responses` (`some` iff the response
has a truthy `usage`). -/
structure RawResponse where
  usage : Option TokenUsage := none
deriving DecidableEq, Repr

/-- The structured result returned by `Runner.run`. -/
structure RunResult where
  new_items : List Item := []
  raw_responses : List RawResponse := []
deriving DecidableEq, Repr

/-- Does `pat` occur at the head of `hay`? -/
def leadMatch : List Char → List Char → Bool
  | [], _ => true
  | _ :: _, [] => false
  | a :: ps, b :: hs => a == b && leadMatch ps hs

/-- Scan `hay` for an occurrence of `pat`. -/
def subSearch (pat : List Char) : List Char → Bool
  | [] => pat.isEmpty
  | c :: rest => leadMatch pat (c :: rest) || subSearch pat rest

/-- Python `pat in hay` on strings: substring containment. -/
def containsSub (hay pat : String) : Bool :=
  subSearch pat.data hay.data

/-- ASCII lower-casing of one character (Python `str.lower` restricted to the
ASCII type tags it is applied to here). -/
def lowerChar (c : Char) : Char :=
  if 'A' ≤ c ∧ c ≤ 'Z' then Char.ofNat (c.toNat + 32) else c

/-- Python `str.lower()`. -/
def pyLower (s : String) : String :=
  ⟨s.data.map lowerChar⟩

/-- Python truthiness of an optional string (`None` and `""` are falsy). -/
def truthyOptStr : Option String → Bool
  | some s => s ≠ ""
  | none => false

/-- Python truthiness of `tool_args` (`None`, `{}` and `""` are falsy). -/
def truthyArgs : Option ToolArgs → Bool
  | none => false
  | some (.parsed kvs) => !kvs.isEmpty
  | some (.raw s) => s ≠ ""

/-- Python `'command' in tool_args`: key membership on a dict, substring
containment on a string. -/
def argsHasCommand : ToolArgs → Bool
  | .parsed kvs => kvs.any (fun p => p.1 = "command")
  | .raw s => containsSub s "command"

/-- Python `str(...)` of the parsed-or-raw arguments (dict values are
modelled as strings, printed in Python's repr form). -/
def argsRepr : ToolArgs → String
  | .parsed kvs =>
      "\x7b" ++ String.intercalate ", "
        (kvs.map (fun p => "'" ++ p.1 ++ "': '" ++ p.2 ++ "'")) ++ "\x7d"
  | .raw s => s

/-- The accumulator of the extraction loop in `_execute_task`
(lines 63-133): initial/final message, `tools_used`, `tool_commands`,
`tool_outputs` (a dict keyed `0, 1, ...`, i.e. a list in emission order). -/
structure Extraction where
  initial_message : String := ""
  final_message : String := ""
  tools_used : List String := []
  tool_commands : List (String × String) := []
  tool_outputs : List String := []
deriving DecidableEq, Repr

/-- The two `elif` arms of tool-name resolution that probe `item.raw_item`
(lines 84-95). -/
def resolveFromRaw : Option RawItem → Option String × Option ToolArgs
  | none => (none, none)
  | some ri =>
      match ri.tool_calls with
      | some tcs =>
          match tcs with
          | tc :: _ => (some tc.function.name, some tc.function.arguments)
          | [] => (none, none)
      | none =>
          match ri.name with
          | some n => (some n, none)
          | none => (none, none)

/-- Resolve `tool_name` and `tool_args` for an item already classified as a
tool call (lines 78-95): prefer a truthy `item.tool_name`; else the
`raw_item.tool_calls` arm when that attribute exists (even when the list is
empty, the `elif` chain stops there); else `raw_item.name`. -/
def resolveToolName (item : Item) : Option String × Option ToolArgs :=
  match item.tool_name with
  | some n =>
      if n ≠ "" then (some n, none)
      else resolveFromRaw item.raw_item
  | none => resolveFromRaw item.raw_item

/-- The `tool_commands[tool_name] = ...` assignment (lines 100-106).  When
the arguments are a raw string containing `"command"` and the tool is
`generic_linux_command`, Python's `tool_args['command']` raises `TypeError`
(string indices must be integers); that exception escapes to the generic
`except` of `_execute_task`. -/
def buildCommand (toolName : String) (toolArgs : Option ToolArgs) :
    Except String String :=
  if truthyArgs toolArgs then
    match toolArgs with
    | some args =>
        if toolName = "generic_linux_command" ∧ argsHasCommand args then
          match args with
          | .parsed kvs =>
              return "Executing Command: " ++ (List.lookup "command" kvs).getD ""
          | .raw _ => .error "TypeError: string indices must be integers"
        else
          return "Executing " ++ toolName ++ ": " ++ (argsRepr args).take 100
    | none => return "Executing " ++ toolName
  else
    return "Executing " ++ toolName

/-- The text extracted from the first element of `raw_item.content`
(lines 113-121). -/
def contentText : ContentItem → String
  | .text s => s
  | .content s => s
  | .reprOf s => s

/-- One iteration of the extraction loop (lines 71-133).  The branch order is
the code's: the `'tool_call' in item_type_str` test fires first, so items
whose type string contains `tool_call_output` are also classified as tool
calls and the dedicated `tool_call_output` arm only fires for type strings
containing `tool_call_output` but not `tool_call`. -/
def processItem (ex : Extraction) (item : Item) : Except String Extraction := do
  let t := pyLower item.type_str
  if containsSub t "tool_call" then
    let (toolName, toolArgs) := resolveToolName item
    match toolName with
    | some n =>
        if n ≠ "" then
          let cmd ← buildCommand n toolArgs
          return { ex with
            tools_used := ex.tools_used ++ [n]
            tool_commands := setKey ex.tool_commands n cmd }
        else
          return ex
    | none => return ex
  else if containsSub t "message_output" ∨ containsSub t "message" then
    match item.raw_item with
    | some ri =>
        match ri.content with
        | some (ci :: _) =>
            let messageText := contentText ci
            if ex.initial_message = "" ∧ messageText ≠ "" then
              return { ex with initial_message := messageText }
            else if messageText ≠ "" ∧ messageText ≠ ex.initial_message then
              return { ex with final_message := messageText }
            else
              return ex
        | _ => return ex
    | none => return ex
  else if containsSub t "tool_call_output" then
    match item.output with
    | some o => return { ex with tool_outputs := ex.tool_outputs ++ [o.take 2000] }
    | none => return ex
  else
    return ex

/-- The whole extraction loop over `result.new_items`. -/
def processItems (items : List Item) : Except String Extraction :=
  items.foldlM processItem {}

/-- Lines 138-156: the task's primary result, computed from the captured
tool outputs, the (already deduplicated) tool names, and the two messages. -/
def computeTaskResult (toolOutputs toolsUsed : List String)
    (finalMessage initialMessage : String) : String :=
  if !toolOutputs.isEmpty then
    String.intercalate "\n\n" toolOutputs
  else if !toolsUsed.isEmpty then
    "Executed tools: " ++ String.intercalate ", " toolsUsed
  else
    let assistantMessage := if finalMessage ≠ "" then finalMessage else initialMessage
    if assistantMessage ≠ "" then assistantMessage else "Task completed"

/-- Sum the token counters over `raw_responses` (lines 185-201). -/
def aggregateUsage (rs : List RawResponse) : TokenUsage :=
  rs.foldl
    (fun acc r =>
      match r.usage with
      | some u =>
          { prompt_tokens := acc.prompt_tokens + u.prompt_tokens
            completion_tokens := acc.completion_tokens + u.completion_tokens
            total_tokens := acc.total_tokens + u.total_tokens }
      | none => acc)
    {}

/-! ## TaskManager (`task_manager.py`)

`_execute_task` is one coroutine.  Between two `await`s it runs atomically
(cooperative scheduling), so it is embedded as a function from the task and
the outcome of the single external suspension point (`Runner.run`) to the
task's final state together with an effect trace: the `_notify_task_update`
broadcasts it issued (session id and the task's status at that moment), the
successive values written to `task.completed_at`, and whether the id was
removed from `running_tasks`. -/

/-- The three ways the body of `_execute_task`'s `try` can leave
`await Runner.run(...)`: a structured result, an exception (caught by
`except Exception`), or `asyncio.CancelledError` delivered at the
suspension point (caught by `except asyncio.CancelledError` and re-raised). -/
inductive RunOutcome where
  | success (res : RunResult)
  | failure (msg : String)
  | cancelledDuring
deriving DecidableEq, Repr

/-- The final task state and effect trace of one `_execute_task` run. -/
structure ExecEffects where
  task : Task
  notes : List (String × TaskStatus)
  completedAtWrites : List Nat
  removedFromRunning : Bool
  clock : Nat
deriving DecidableEq, Repr

/-- The `finally` block of `_execute_task` (lines 216-223): set
`task.completed_at = datetime.utcnow()` unconditionally, remove the id from
`running_tasks`, and broadcast one `task_update` carrying the task's current
status. -/
def finallyBlock (sid : String) (t : Task) (writes : List Nat) (c : Nat) :
    ExecEffects :=
  let tf := { t with completed_at := some c }
  { task := tf
    notes := [(sid, TaskStatus.running), (sid, tf.status)]
    completedAtWrites := writes ++ [c]
    removedFromRunning := true
    clock := c + 1 }

/-- Model of `TaskManager._execute_task(task, agent)`.  `clock` is the value
`datetime.utcnow()` yields at entry; every further call ticks it.  The run
first sets status `running` / `started_at` and broadcasts, then awaits
`Runner.run`; the three exit paths all fall through the `finally` block. -/
def execute_task (task : Task) (outcome : RunOutcome) (clock : Nat) :
    ExecEffects :=
  let t1 := { task with status := TaskStatus.running, started_at := some clock }
  let sid := task.session_id
  match outcome with
  | .success res =>
      match processItems res.new_items with
      | .ok ex =>
          let toolsUsed := ex.tools_used.dedup
          let taskResult :=
            computeTaskResult ex.tool_outputs toolsUsed ex.final_message
              ex.initial_message
          let usage := aggregateUsage res.raw_responses
          let t2 := { t1 with
            result := some taskResult
            metadata :=
              { initial_thinking :=
                  if ex.initial_message ≠ "" then some ex.initial_message else none
                final_response :=
                  if ex.final_message ≠ "" then some ex.final_message else none
                tool_commands := ex.tool_commands
                tool_outputs := ex.tool_outputs }
            status := TaskStatus.completed
            completed_at := some (clock + 1)
            tools_used := toolsUsed
            logs := (List.range toolsUsed.length).zip toolsUsed |>.map
              (fun p => { ltype := "tool_executed", tool := some p.2,
                          timestamp := clock + 2 + p.1 })
            token_usage :=
              if usage.total_tokens > 0 then some usage else task.token_usage }
          finallyBlock sid t2 [clock + 1] (clock + 2 + toolsUsed.length)
      | .error msg =>
          -- an exception raised inside the extraction hits `except Exception`
          let t2 := { t1 with
            status := TaskStatus.failed
            error := some msg
            logs := t1.logs ++
              [{ ltype := "error", errMsg := some msg, timestamp := clock + 1 }] }
          finallyBlock sid t2 [] (clock + 2)
  | .failure msg =>
      let t2 := { t1 with
        status := TaskStatus.failed
        error := some msg
        logs := t1.logs ++
          [{ ltype := "error", errMsg := some msg, timestamp := clock + 1 }] }
      finallyBlock sid t2 [] (clock + 2)
  | .cancelledDuring =>
      -- `except asyncio.CancelledError`: mark cancelled and re-raise; the
      -- `finally` block still runs before the exception propagates
      let t2 := { t1 with
        status := TaskStatus.cancelled
        error := some "Task was cancelled" }
      finallyBlock sid t2 [] (clock + 1)

/-- The terminal status `_execute_task` leaves the task in for each outcome
(an extraction exception turns a successful run into `failed`). -/
def RunOutcome.finalStatus : RunOutcome → TaskStatus
  | .success res =>
      match processItems res.new_items with
      | .ok _ => TaskStatus.completed
      | .error _ => TaskStatus.failed
  | .failure _ => TaskStatus.failed
  | .cancelledDuring => TaskStatus.cancelled

/-- The task-manager state: the task map and the ids with a live asyncio
handle in `running_tasks`. -/
structure TMState where
  tasks : List (String × Task)
  running_tasks : List String
deriving DecidableEq, Repr

/-- Model of `TaskManager.create_task(session_id, message, agent)`: under the lock,
allocate a `Task` (status defaults to `pending`), store it, schedule
`_execute_task` with `asyncio.create_task`, record the handle, and return
the task.  `asyncio.create_task` only schedules the coroutine: nothing of
`_execute_task` runs before `create_task` returns, because the creating
coroutine reaches no suspension point in between. -/
def create_task (st : TMState) (session_id message newId : String)
    (clock : Nat) : Task × TMState :=
  let task : Task :=
    { id := newId, session_id := session_id, message := message,
      created_at := clock }
  (task,
   { tasks := st.tasks ++ [(newId, task)]
     running_tasks := st.running_tasks ++ [newId] })

/-- The error text of line 267. -/
def timeoutErrorText (timeout : Nat) : String :=
  "Task timed out after " ++ toString timeout ++ " seconds"

/-- Model of `TaskManager.wait_for_task(task_id, timeout)` for a task whose execution
would take `duration` and end with `outcome`.

  * If the id has no live handle, return `True` immediately.
  * If the execution finishes within the timeout, `asyncio.wait_for` returns
    its value and `wait_for_task` returns `True` — unless the execution was
    cancelled from outside, in which case awaiting the handle re-raises
    `asyncio.CancelledError`, which `except Exception` does not catch
    (it derives from `BaseException` since Python 3.8), so it escapes
    `wait_for_task` altogether (modelled by `.error`).
  * On timeout, `asyncio.wait_for` cancels the inner task and waits for the
    cancellation to complete before raising `TimeoutError`, so the
    cancellation path of `_execute_task` (status `cancelled`, `finally`
    block) has already run; the handler then finds the id already removed
    from `running_tasks` (skipping its explicit `cancel()`), overwrites the
    task to `failed` with the timeout error text, re-sets `completed_at`,
    and returns `False`. -/
def wait_for_task (task : Task) (isRunning : Bool) (outcome : RunOutcome)
    (duration timeout clock : Nat) :
    Except String (Bool × Task × List (String × TaskStatus) × List Nat) :=
  if !isRunning then
    .ok (true, task, [], [])
  else if duration ≤ timeout then
    let e := execute_task task outcome clock
    match outcome with
    | .cancelledDuring => .error "asyncio.CancelledError"
    | _ => .ok (true, e.task, e.notes, e.completedAtWrites)
  else
    let e := execute_task task RunOutcome.cancelledDuring clock
    let t2 := { e.task with
      status := TaskStatus.failed
      error := some (timeoutErrorText timeout)
      completed_at := some e.clock }
    .ok (false, t2, e.notes, e.completedAtWrites ++ [e.clock])

/-! ## `send_message` (`main.py`, lines 114-234)

The claims about the request path concern the computation of the assistant
message content (lines 142-154) and the shape of the returned descriptor
(lines 225-234). -/

/-- Lines 142-154: the assistant message content, from the boolean returned
by `wait_for_task` and the re-fetched task. -/
def responseContent (success : Bool) (completedTask : Option Task) : String :=
  if !success then
    "Task timed out after 2 minutes"
  else
    match completedTask with
    | some t =>
        if truthyOptStr t.error then
          "Error: " ++ t.error.getD ""
        else if truthyOptStr t.metadata.final_response then
          t.metadata.final_response.getD ""
        else if truthyOptStr t.metadata.initial_thinking then
          t.metadata.initial_thinking.getD ""
        else
          "Agent completed but no response generated"
    | none => "Agent completed but no response generated"

/-- The assistant `ChatMessage` descriptor returned by `send_message`
(role, content, tools used, optional task back-reference). -/
structure AssistantMessage where
  role : String
  content : String
  tools_used : List String
  task_id : Option String
deriving DecidableEq, Repr

/-- The assistant `ChatMessage` built by `send_message` (lines 156-157 and
190-196): content from `responseContent`, tools from the completed task. -/
def assistant_message_of (success : Bool) (completedTask : Option Task) :
    AssistantMessage :=
  let toolsUsedList :=
    match completedTask with
    | some t => if !t.tools_used.isEmpty then t.tools_used else []
    | none => []
  { role := "assistant"
    content := responseContent success completedTask
    tools_used := toolsUsedList
    task_id :=
      match completedTask with
      | some t => if !toolsUsedList.isEmpty then some t.id else none
      | none => none }

/-- Failure of the whole request as seen by the client: a deliberate HTTP
error response, or an exception escaping the endpoint (the app's exception
handlers in `main.py` lines 370-377 catch `Exception`, not
`BaseException`). -/
inductive RequestFailure where
  | notFound (code : Nat)
  | escaped (exc : String)
deriving DecidableEq, Repr

/-- Model of the whole `send_message` endpoint (`main.py` lines 114-234):
reject a missing session with HTTP 404 (lines 117-119); create the task
(line 130); block in `wait_for_task` (line 137); re-fetch the task
(line 140) and build the assistant message descriptor (lines 142-154,
190-196, 225-234).  When the task is cancelled from outside while the
endpoint waits, `wait_for_task` re-raises `asyncio.CancelledError` (a
`BaseException` since Python 3.8, caught by none of its `except` clauses),
which escapes the endpoint: the request fails at protocol level and no
descriptor is built. -/
def send_message (sessions : Sessions) (session_id content newId : String)
    (outcome : RunOutcome) (duration timeout clock : Nat) (st : TMState) :
    Except RequestFailure AssistantMessage :=
  match get_session sessions session_id with
  | none => .error (.notFound 404)
  | some _ =>
      let created := create_task st session_id content newId clock
      match wait_for_task created.1 true outcome duration timeout (clock + 1) with
      | .error exc => .error (.escaped exc)
      | .ok r => .ok (assistant_message_of r.1 (some r.2.1))

/-! ## Spec-side definition and concrete sample data -/

/-- Modelled from the spec's wording of the result priority (claim C4), to be
compared with `computeTaskResult` from the source: prefer the concatenation
(blank-line join) of the captured tool outputs; else the synthesized
`"Executed tools: ..."` summary when tool names are known; else the final
message text, or the initial message text when no final message exists; else
the fixed placeholder. -/
def resultSpecPriority (toolOutputs toolsUsed : List String)
    (finalMessage initialMessage : String) : String :=
  if toolOutputs ≠ [] then String.intercalate "\n\n" toolOutputs
  else if toolsUsed ≠ [] then
    "Executed tools: " ++ String.intercalate ", " toolsUsed
  else if finalMessage ≠ "" then finalMessage
  else if initialMessage ≠ "" then initialMessage
  else "Task completed"

/-- A concrete task used by witnesses and counterexamples. -/
def sampleTask : Task :=
  { id := "t1", session_id := "s1", message := "hi", created_at := 0 }

/-- A run reporting the same tool twice. -/
def dupItems : List Item :=
  [{ type_str := "tool_call_item", tool_name := some "nmap" },
   { type_str := "tool_call_item", tool_name := some "nmap" }]

/-- A concrete session and registry for the `send_message` witness. -/
def sampleSession : Session :=
  { id := "s1", name := "n", agent_type := "a", model := "m",
    created_at := 0, updated_at := 0 }

/-- The registry holding `sampleSession`. -/
def sampleSessions : Sessions := [("s1", sampleSession)]

/-! ## Helper lemmas -/

/-- In the `Except` monad, `pure` is `Except.ok`. -/
theorem except_pure_eq_ok {ε α : Type} (a : α) :
    (pure a : Except ε α) = Except.ok a := rfl

/-- Binding an `Except.ok` applies the continuation. -/
theorem except_bind_ok {ε α β : Type} (a : α) (f : α → Except ε β) :
    (Except.ok a >>= f : Except ε β) = f a := rfl

/-- Binding an `Except.error` short-circuits. -/
theorem except_bind_error {ε α β : Type} (e : ε) (f : α → Except ε β) :
    (Except.error e >>= f : Except ε β) = Except.error e := rfl

/-- Looking up a key just removed by `delKey` yields nothing. -/
theorem lookup_delKey {β : Type} (l : List (String × β)) (k : String) :
    List.lookup k (delKey l k) = none := by
  induction l with
  | nil => rfl
  | cons p rest ih =>
      simp only [delKey, List.filter_cons] at ih ⊢
      by_cases h : p.1 = k
      · simp only [h, bne_self_eq_false]
        exact ih
      · have hne : (p.1 != k) = true := bne_iff_ne.mpr h
        have hbeq : (k == p.1) = false :=
          beq_eq_false_iff_ne.mpr (fun he => h he.symm)
        simp only [hne, if_true, List.lookup, hbeq]
        exact ih

/-- Folding the per-socket sends never raises and delivers exactly to the
non-failing sockets, in order. -/
theorem gather_sends_ok (bucket : List WSocket) (data : Payload)
    (acc : List (Nat × Payload)) :
    gather_sends bucket data acc
      = Except.ok
          (acc ++ (bucket.filter (fun ws => !ws.failing)).map
            (fun ws => (ws.wid, data))) := by
  induction bucket generalizing acc with
  | nil => simp [gather_sends, except_pure_eq_ok]
  | cons ws rest ih =>
      by_cases h : ws.failing
      · simpa [gather_sends, send_to_websocket, send_json, h,
          List.foldlM_cons, except_pure_eq_ok, except_bind_ok] using ih acc
      · simpa [gather_sends, send_to_websocket, send_json, h,
          List.foldlM_cons, except_pure_eq_ok, except_bind_ok]
          using ih (acc ++ [(ws.wid, data)])

/-- Lemma: `list_remove` raises `ValueError` exactly when the element is absent. -/
theorem list_remove_not_mem (l : List WSocket) (ws : WSocket) (h : ws ∉ l) :
    list_remove l ws = .error "ValueError: list.remove(x): x not in list" := by
  induction l with
  | nil => rfl
  | cons w rest ih =>
      have hne : ¬ w = ws := fun he => h (he ▸ List.mem_cons_self w rest)
      have hrest : ws ∉ rest := fun hm => h (List.mem_cons_of_mem w hm)
      simp [list_remove, hne, ih hrest]

/-- The status of each outcome's terminal state is indeed terminal. -/
theorem finalStatus_isTerminal (o : RunOutcome) :
    o.finalStatus.isTerminal = true := by
  cases o with
  | success res =>
      cases h : processItems res.new_items <;>
        simp [RunOutcome.finalStatus, h, TaskStatus.isTerminal]
  | failure msg => rfl
  | cancelledDuring => rfl

/-- Lemma: `_execute_task` leaves the task in the outcome's terminal status. -/
theorem execute_task_status (task : Task) (outcome : RunOutcome) (clock : Nat) :
    (execute_task task outcome clock).task.status = outcome.finalStatus := by
  cases outcome with
  | success res =>
      cases h : processItems res.new_items <;>
        simp [execute_task, finallyBlock, RunOutcome.finalStatus, h]
  | failure msg => simp [execute_task, finallyBlock, RunOutcome.finalStatus]
  | cancelledDuring => simp [execute_task, finallyBlock, RunOutcome.finalStatus]

/-- Lemma: `_execute_task` broadcasts exactly twice, to the task's session: once
with status `running` at entry and once from the `finally` block with the
terminal status. -/
theorem execute_task_notes (task : Task) (outcome : RunOutcome) (clock : Nat) :
    (execute_task task outcome clock).notes
      = [(task.session_id, TaskStatus.running),
         (task.session_id, outcome.finalStatus)] := by
  cases outcome with
  | success res =>
      cases h : processItems res.new_items <;>
        simp [execute_task, finallyBlock, RunOutcome.finalStatus, h]
  | failure msg => simp [execute_task, finallyBlock, RunOutcome.finalStatus]
  | cancelledDuring => simp [execute_task, finallyBlock, RunOutcome.finalStatus]

/-- The `finally` block always removes the id from `running_tasks`. -/
theorem execute_task_removed (task : Task) (outcome : RunOutcome)
    (clock : Nat) :
    (execute_task task outcome clock).removedFromRunning = true := by
  cases outcome with
  | success res =>
      cases h : processItems res.new_items <;>
        simp [execute_task, finallyBlock, h]
  | failure msg => rfl
  | cancelledDuring => rfl

/-- The `finally` block always sets `completed_at`. -/
theorem execute_task_completed_at (task : Task) (outcome : RunOutcome)
    (clock : Nat) :
    (execute_task task outcome clock).task.completed_at.isSome = true := by
  cases outcome with
  | success res =>
      cases h : processItems res.new_items <;>
        simp [execute_task, finallyBlock, h]
  | failure msg => rfl
  | cancelledDuring => rfl

/-- Lemma: `completed_at` is assigned twice on the successful-completion path (once
when the status is set to `completed`, once in the `finally` block) and once
on the failure and cancellation paths. -/
theorem execute_task_writes (task : Task) (outcome : RunOutcome)
    (clock : Nat) :
    (execute_task task outcome clock).completedAtWrites.length
      = (if outcome.finalStatus = TaskStatus.completed then 2 else 1) := by
  cases outcome with
  | success res =>
      cases h : processItems res.new_items <;>
        simp [execute_task, finallyBlock, RunOutcome.finalStatus, h]
  | failure msg => rfl
  | cancelledDuring => rfl

/-- Execution sets `started_at` to the clock at its entry. -/
theorem execute_task_started_at (task : Task) (outcome : RunOutcome)
    (clock : Nat) :
    (execute_task task outcome clock).task.started_at = some clock := by
  cases outcome with
  | success res =>
      cases h : processItems res.new_items <;>
        simp [execute_task, finallyBlock, h]
  | failure msg => rfl
  | cancelledDuring => rfl

/-! ## Claim theorems -/

/-- Claim C7: `delete_session` returns `True` exactly when a session with that
id existed; after the delete a `get_session` on that id returns `none`, and
a second `delete_session` on the same id returns `False`. -/
theorem delete_session_contract (st : Sessions) (sid : String) :
    (delete_session st sid).1 = (get_session st sid).isSome
    ∧ get_session (delete_session st sid).2 sid = none
    ∧ (delete_session (delete_session st sid).2 sid).1 = false := by
  cases h : List.lookup sid st with
  | none =>
      refine ⟨?_, ?_, ?_⟩ <;>
        simp [delete_session, get_session, h]
  | some s =>
      have hdel := lookup_delKey st sid
      refine ⟨?_, ?_, ?_⟩ <;>
        simp [delete_session, get_session, h, hdel]

/-- Claim C6: `broadcast_to_session` never raises: it returns exactly one
delivery of the payload per currently registered non-failing observer of the
session (a failing send is swallowed and does not stop the others), and with
no bucket for the session it returns no deliveries at all. -/
theorem broadcast_to_session_contract (conns : Connections)
    (session_id : String) (data : Payload) :
    broadcast_to_session conns session_id data
      = Except.ok
          ((((List.lookup session_id conns).getD []).filter
            (fun ws => !ws.failing)).map (fun ws => (ws.wid, data))) := by
  cases h : List.lookup session_id conns with
  | none => simp [broadcast_to_session, h, except_pure_eq_ok]
  | some bucket =>
      simp [broadcast_to_session, h, gather_sends_ok]

/-- Claim C10: For a session id that has an observer bucket, `disconnect` with
a handle that is not registered in the bucket raises `ValueError` (from
`list.remove`); for a session id with no bucket at all it silently returns
the registry unchanged. -/
theorem disconnect_contract (conns : Connections) (ws : WSocket)
    (session_id : String) :
    (∀ bucket, List.lookup session_id conns = some bucket → ws ∉ bucket →
      disconnect conns ws session_id
        = .error "ValueError: list.remove(x): x not in list")
    ∧ (List.lookup session_id conns = none →
      disconnect conns ws session_id = .ok conns) := by
  constructor
  · intro bucket hb hmem
    simp [disconnect, hb, list_remove_not_mem bucket ws hmem,
      except_bind_error]
  · intro h
    simp [disconnect, h]

/-- Witness for C10: with one observer registered for `"s1"`, disconnecting
an unregistered handle raises, and disconnecting from a bucketless registry
is a no-op. -/
theorem disconnect_contract_witness :
    disconnect [("s1", [⟨1, false⟩])] ⟨2, false⟩ "s1"
        = .error "ValueError: list.remove(x): x not in list"
    ∧ disconnect ([] : Connections) ⟨2, false⟩ "s1" = .ok [] := by
  constructor
  · exact (disconnect_contract [("s1", [⟨1, false⟩])] ⟨2, false⟩ "s1").1
      [⟨1, false⟩] (by decide) (by decide)
  · exact (disconnect_contract ([] : Connections) ⟨2, false⟩ "s1").2 (by decide)

/-- Claim C1: `wait_for_task` on a running task: when the execution outlasts
the timeout it returns `False` and leaves the task `failed` with the
explicit timeout error and `completed_at` set; with a long enough timeout it
returns `True` and the task is in the terminal state produced by the run
itself, not by the timeout (external cancellation excluded: there
`wait_for_task` re-raises instead of returning). -/
theorem wait_for_task_timeout_contract (task : Task) (outcome : RunOutcome)
    (duration timeout clock : Nat) :
    (timeout < duration →
      ∃ t notes writes,
        wait_for_task task true outcome duration timeout clock
          = .ok (false, t, notes, writes)
        ∧ t.status = TaskStatus.failed
        ∧ t.error = some (timeoutErrorText timeout)
        ∧ t.completed_at.isSome = true)
    ∧ (duration ≤ timeout → outcome ≠ RunOutcome.cancelledDuring →
      ∃ t notes writes,
        wait_for_task task true outcome duration timeout clock
          = .ok (true, t, notes, writes)
        ∧ t.status = outcome.finalStatus
        ∧ outcome.finalStatus.isTerminal = true) := by
  constructor
  · intro hlt
    have hnle : ¬ duration ≤ timeout := not_le.mpr hlt
    refine
      ⟨{ (execute_task task RunOutcome.cancelledDuring clock).task with
          status := TaskStatus.failed
          error := some (timeoutErrorText timeout)
          completed_at :=
            some (execute_task task RunOutcome.cancelledDuring clock).clock },
        (execute_task task RunOutcome.cancelledDuring clock).notes,
        (execute_task task RunOutcome.cancelledDuring clock).completedAtWrites
          ++ [(execute_task task RunOutcome.cancelledDuring clock).clock],
        ?_, rfl, rfl, rfl⟩
    simp [wait_for_task, hnle]
  · intro hle hnc
    cases outcome with
    | success res =>
        refine ⟨(execute_task task (RunOutcome.success res) clock).task,
          (execute_task task (RunOutcome.success res) clock).notes,
          (execute_task task (RunOutcome.success res) clock).completedAtWrites,
          ?_, execute_task_status task (RunOutcome.success res) clock,
          finalStatus_isTerminal (RunOutcome.success res)⟩
        simp [wait_for_task, hle]
    | failure msg =>
        refine ⟨(execute_task task (RunOutcome.failure msg) clock).task,
          (execute_task task (RunOutcome.failure msg) clock).notes,
          (execute_task task (RunOutcome.failure msg) clock).completedAtWrites,
          ?_, execute_task_status task (RunOutcome.failure msg) clock,
          finalStatus_isTerminal (RunOutcome.failure msg)⟩
        simp [wait_for_task, hle]
    | cancelledDuring => exact absurd rfl hnc

/-- Witness for C1: with the empty agent run, a 120-tick timeout against a
200-tick execution fails with the timeout error, and against a 50-tick
execution succeeds with the run's own terminal state. -/
theorem wait_for_task_timeout_contract_witness :
    (120 : Nat) < 200
    ∧ (∃ t notes writes,
        wait_for_task sampleTask true (RunOutcome.success {}) 200 120 0
          = .ok (false, t, notes, writes)
        ∧ t.status = TaskStatus.failed
        ∧ t.error = some (timeoutErrorText 120)
        ∧ t.completed_at.isSome = true)
    ∧ (∃ t notes writes,
        wait_for_task sampleTask true (RunOutcome.success {}) 50 120 0
          = .ok (true, t, notes, writes)
        ∧ t.status = (RunOutcome.success {}).finalStatus
        ∧ (RunOutcome.success {}).finalStatus.isTerminal = true) := by
  refine ⟨by decide, ?_, ?_⟩
  · exact (wait_for_task_timeout_contract sampleTask (RunOutcome.success {})
      200 120 0).1 (by decide)
  · exact (wait_for_task_timeout_contract sampleTask (RunOutcome.success {})
      50 120 0).2 (by decide) (by decide)

/-- Claim C2, counterexample: On the plain success path `completed_at` is
assigned twice — at line 171 together with status `completed`, and again
unconditionally in the `finally` block at line 218 — with different clock
values, refuting "once `completed_at` has been set it is never assigned
again". -/
theorem completed_at_reassigned_counterexample :
    (execute_task sampleTask (RunOutcome.success {}) 0).completedAtWrites
        = [1, 2]
    ∧ (execute_task sampleTask (RunOutcome.success {}) 0).task.completed_at
        = some 2
    ∧ (1 : Nat) ≠ 2 := by
  refine ⟨rfl, rfl, by decide⟩

/-- Claim C2, amended: `completed_at` is set (and the status terminal) after
every execution, and a freshly created task has no `completed_at` and status
`pending`; but `completed_at` is not write-once: the successful-completion
path assigns it twice, the other paths once (and the timeout path of
`wait_for_task` assigns it yet again). -/
theorem completed_at_lifecycle (task : Task) (outcome : RunOutcome)
    (clock : Nat) (st : TMState) (sid msg nid : String) (c : Nat) :
    (execute_task task outcome clock).task.status.isTerminal = true
    ∧ (execute_task task outcome clock).task.completed_at.isSome = true
    ∧ (execute_task task outcome clock).completedAtWrites.length
        = (if outcome.finalStatus = TaskStatus.completed then 2 else 1)
    ∧ (create_task st sid msg nid c).1.completed_at = none
    ∧ (create_task st sid msg nid c).1.status = TaskStatus.pending := by
  refine ⟨?_, ?_, ?_, rfl, rfl⟩
  · rw [execute_task_status]
    exact finalStatus_isTerminal outcome
  · exact execute_task_completed_at task outcome clock
  · exact execute_task_writes task outcome clock

/-- Claim C3: Every execution path (success, exception, cancellation)
broadcasts exactly one terminal-state notification to the task's session,
as the last broadcast, from the single `finally` block that also removes the
handle; no path leaves the task in `running`. -/
theorem terminal_notification_exactly_once (task : Task)
    (outcome : RunOutcome) (clock : Nat) :
    ((execute_task task outcome clock).notes.filter
        (fun p => p.2.isTerminal)).length = 1
    ∧ (execute_task task outcome clock).notes
        = [(task.session_id, TaskStatus.running),
           (task.session_id, (execute_task task outcome clock).task.status)]
    ∧ (execute_task task outcome clock).task.status.isTerminal = true
    ∧ (execute_task task outcome clock).removedFromRunning = true := by
  have hn := execute_task_notes task outcome clock
  have hs := execute_task_status task outcome clock
  have ht := finalStatus_isTerminal outcome
  have hrun : TaskStatus.running.isTerminal = false := rfl
  refine ⟨?_, ?_, ?_, ?_⟩
  · rw [hn]
    simp [List.filter, hrun, ht]
  · rw [hn, hs]
  · rw [hs]
    exact ht
  · exact execute_task_removed task outcome clock

/-- Claim C5, counterexample: The task returned by `create_task` is still in
`pending`: `asyncio.create_task` only schedules `_execute_task`, and no
suspension point is reached before `create_task` returns, so the caller does
observe `pending`, refuting "transitions it to `running` before returning
control to the caller". -/
theorem create_task_returns_pending_counterexample :
    (create_task ⟨[], []⟩ "s1" "hello" "t1" 0).1.status = TaskStatus.pending
    ∧ (create_task ⟨[], []⟩ "s1" "hello" "t1" 0).1.status
        ≠ TaskStatus.running := by
  refine ⟨rfl, by decide⟩

/-- Claim C5, amended: `create_task` allocates the task in `pending`,
registers a cancellable handle for it, and returns it still `pending`; the
transition to `running` (with `started_at` stamped and a `running` broadcast
first) is the first action of the scheduled execution, which runs only after
`create_task` has returned. -/
theorem create_task_lifecycle (st : TMState) (sid msg nid : String)
    (clock : Nat) (outcome : RunOutcome) (c2 : Nat) :
    (create_task st sid msg nid clock).1.status = TaskStatus.pending
    ∧ nid ∈ (create_task st sid msg nid clock).2.running_tasks
    ∧ (execute_task (create_task st sid msg nid clock).1 outcome c2).notes.head?
        = some (sid, TaskStatus.running)
    ∧ (execute_task (create_task st sid msg nid clock).1 outcome c2).task.started_at
        = some c2 := by
  refine ⟨rfl, ?_, ?_, ?_⟩
  · simp [create_task]
  · rw [execute_task_notes]
    rfl
  · exact execute_task_started_at _ outcome c2

/-- Claim C4: The task's primary result follows the claimed priority:
`computeTaskResult` (lines 138-156) agrees everywhere with the
spec-modelled `resultSpecPriority`, and on every successful run
`_execute_task` stores exactly `computeTaskResult` of the captured tool
outputs, deduplicated tool names, and final/initial messages. -/
theorem task_result_priority (toolOutputs toolsUsed : List String)
    (finalMessage initialMessage : String) (task : Task) (res : RunResult)
    (clock : Nat) (ex : Extraction)
    (h : processItems res.new_items = Except.ok ex) :
    computeTaskResult toolOutputs toolsUsed finalMessage initialMessage
      = resultSpecPriority toolOutputs toolsUsed finalMessage initialMessage
    ∧ (execute_task task (RunOutcome.success res) clock).task.result
      = some (computeTaskResult ex.tool_outputs ex.tools_used.dedup
          ex.final_message ex.initial_message) := by
  constructor
  · by_cases h1 : toolOutputs = []
    · by_cases h2 : toolsUsed = []
      · by_cases h3 : finalMessage = ""
        · by_cases h4 : initialMessage = "" <;>
            simp [computeTaskResult, resultSpecPriority, h1, h2, h3, h4,
              List.isEmpty_iff]
        · simp [computeTaskResult, resultSpecPriority, h1, h2, h3,
            List.isEmpty_iff]
      · simp [computeTaskResult, resultSpecPriority, h1, h2,
          List.isEmpty_iff]
    · simp [computeTaskResult, resultSpecPriority, h1, List.isEmpty_iff]
  · simp [execute_task, finallyBlock, h]

/-- Witness for C4: the empty run extracts nothing, and the stored result is
the one `computeTaskResult` computes. -/
theorem task_result_priority_witness :
    computeTaskResult [] [] "" "" = resultSpecPriority [] [] "" ""
    ∧ (execute_task sampleTask (RunOutcome.success {}) 0).task.result
      = some (computeTaskResult [] [] "" "") :=
  task_result_priority [] [] "" "" sampleTask {} 0 {} rfl

/-- Claim C9: After any successful run, the stored `tools_used` list is
duplicate-free (line 136 deduplicates), however often the run repeated a
tool. -/
theorem tools_used_no_duplicates (task : Task) (res : RunResult)
    (clock : Nat) (ex : Extraction)
    (h : processItems res.new_items = Except.ok ex) :
    ((execute_task task (RunOutcome.success res) clock).task.tools_used).Nodup := by
  simp only [execute_task, finallyBlock, h]
  exact List.nodup_dedup _

/-- Witness for C9: a run reporting `nmap` twice still yields a
duplicate-free `tools_used`. -/
theorem tools_used_no_duplicates_witness :
    ((execute_task sampleTask
        (RunOutcome.success { new_items := dupItems }) 0).task.tools_used).Nodup :=
  tools_used_no_duplicates sampleTask { new_items := dupItems } 0
    { tools_used := ["nmap", "nmap"],
      tool_commands := [("nmap", "Executing nmap")] } (by rfl)

/-- Claim C8, counterexample: with the sample session present, cancelling
the task from outside while `send_message` waits (the run would end in 10
ticks, well within the 120-tick timeout) makes `asyncio.CancelledError`
escape `wait_for_task` and the endpoint: the request fails at protocol
level with no descriptor built, refuting "never a protocol-level error". -/
theorem send_message_cancelled_counterexample :
    get_session sampleSessions "s1" = some sampleSession
    ∧ send_message sampleSessions "s1" "hello" "t9"
        RunOutcome.cancelledDuring 10 120 0 ⟨[], []⟩
      = .error (RequestFailure.escaped "asyncio.CancelledError") :=
  ⟨rfl, rfl⟩

/-- Claim C8, amended: for an existing session the endpoint returns a
well-formed assistant descriptor whenever `wait_for_task` returns — the
literal timeout notice on timeout, `"Error: "`-prefixed text when the run
raised, else the final (or initial) response text or the fixed no-response
placeholder — but when the task is cancelled from outside during the wait,
`asyncio.CancelledError` escapes `wait_for_task` and the request fails at
protocol level with no descriptor. -/
theorem send_message_full_contract (sessions : Sessions)
    (session_id content newId : String) (outcome : RunOutcome)
    (duration timeout clock : Nat) (st : TMState) (s : Session)
    (h : get_session sessions session_id = some s) :
    (timeout < duration →
      ∃ m : AssistantMessage,
        send_message sessions session_id content newId outcome duration
            timeout clock st = .ok m
        ∧ m.role = "assistant"
        ∧ m.content = "Task timed out after 2 minutes")
    ∧ (∀ msg, duration ≤ timeout → outcome = RunOutcome.failure msg →
        msg ≠ "" →
      ∃ m : AssistantMessage,
        send_message sessions session_id content newId outcome duration
            timeout clock st = .ok m
        ∧ m.role = "assistant"
        ∧ m.content = "Error: " ++ msg)
    ∧ (∀ res ex, duration ≤ timeout → outcome = RunOutcome.success res →
        processItems res.new_items = Except.ok ex →
      ∃ m : AssistantMessage,
        send_message sessions session_id content newId outcome duration
            timeout clock st = .ok m
        ∧ m.role = "assistant"
        ∧ m.content =
            (if ex.final_message ≠ "" then ex.final_message
             else if ex.initial_message ≠ "" then ex.initial_message
             else "Agent completed but no response generated"))
    ∧ (duration ≤ timeout → outcome = RunOutcome.cancelledDuring →
      send_message sessions session_id content newId outcome duration
          timeout clock st
        = .error (RequestFailure.escaped "asyncio.CancelledError")) := by
  refine ⟨?_, ?_, ?_, ?_⟩
  · intro hlt
    have hnle : ¬ duration ≤ timeout := not_le.mpr hlt
    refine ⟨assistant_message_of false
      (some { (execute_task (create_task st session_id content newId clock).1
            RunOutcome.cancelledDuring (clock + 1)).task with
          status := TaskStatus.failed
          error := some (timeoutErrorText timeout)
          completed_at :=
            some (execute_task (create_task st session_id content newId clock).1
              RunOutcome.cancelledDuring (clock + 1)).clock }), ?_, rfl, rfl⟩
    simp [send_message, h, wait_for_task, hnle]
  · intro msg hle houtcome hne
    subst houtcome
    refine ⟨assistant_message_of true
      (some (execute_task (create_task st session_id content newId clock).1
        (RunOutcome.failure msg) (clock + 1)).task), ?_, rfl, ?_⟩
    · simp [send_message, h, wait_for_task, hle]
    · have herr :
          (execute_task (create_task st session_id content newId clock).1
            (RunOutcome.failure msg) (clock + 1)).task.error = some msg := by
        simp [execute_task, finallyBlock]
      simp [assistant_message_of, responseContent, herr, truthyOptStr, hne]
  · intro res ex hle houtcome hex
    subst houtcome
    refine ⟨assistant_message_of true
      (some (execute_task (create_task st session_id content newId clock).1
        (RunOutcome.success res) (clock + 1)).task), ?_, rfl, ?_⟩
    · simp [send_message, h, wait_for_task, hle]
    · have herr :
          (execute_task (create_task st session_id content newId clock).1
            (RunOutcome.success res) (clock + 1)).task.error = none := by
        simp [execute_task, finallyBlock, create_task, hex]
      have hmeta :
          (execute_task (create_task st session_id content newId clock).1
            (RunOutcome.success res) (clock + 1)).task.metadata
          = { initial_thinking :=
                if ex.initial_message ≠ "" then some ex.initial_message else none
              final_response :=
                if ex.final_message ≠ "" then some ex.final_message else none
              tool_commands := ex.tool_commands
              tool_outputs := ex.tool_outputs } := by
        simp [execute_task, finallyBlock, hex]
      by_cases hf : ex.final_message = ""
      · by_cases hi : ex.initial_message = ""
        · simp [assistant_message_of, responseContent, herr, hmeta,
            truthyOptStr, hf, hi]
        · simp [assistant_message_of, responseContent, herr, hmeta,
            truthyOptStr, hf, hi]
      · simp [assistant_message_of, responseContent, herr, hmeta,
          truthyOptStr, hf]
  · intro hle houtcome
    subst houtcome
    simp [send_message, h, wait_for_task, hle]

/-- Witness for the amended C8: against the sample session, a 120-tick wait
on a 200-tick run yields the timeout-notice descriptor, and a run raising
`boom` within the timeout yields the `"Error: boom"` descriptor. -/
theorem send_message_full_contract_witness :
    (∃ m : AssistantMessage,
      send_message sampleSessions "s1" "hello" "t8" (RunOutcome.success {})
          200 120 0 ⟨[], []⟩ = .ok m
      ∧ m.role = "assistant"
      ∧ m.content = "Task timed out after 2 minutes")
    ∧ (∃ m : AssistantMessage,
      send_message sampleSessions "s1" "hello" "t8" (RunOutcome.failure "boom")
          50 120 0 ⟨[], []⟩ = .ok m
      ∧ m.role = "assistant"
      ∧ m.content = "Error: " ++ "boom") := by
  constructor
  · exact (send_message_full_contract sampleSessions "s1" "hello" "t8"
      (RunOutcome.success {}) 200 120 0 ⟨[], []⟩ sampleSession rfl).1 (by decide)
  · exact (send_message_full_contract sampleSessions "s1" "hello" "t8"
      (RunOutcome.failure "boom") 50 120 0 ⟨[], []⟩ sampleSession rfl).2.1
      "boom" (by decide) rfl (by decide)

end Cai
